import Mathlib

/-!
Verification development for the Nokia NSP Workflow Manager VS Code
filesystem provider (`WorkflowManagerProvider`).

The definitions below are a shallow embedding of the provider's cache and
resource-lifecycle logic: the six in-memory caches (workflows, actions,
templates, workflow folders, workflow documentations, workflow views), the
update/delete/create protocols for workflows, actions and templates, the
directory-listing tag filter, the `stat` path classifier, and the `delete`
dispatcher.  Remote HTTP interactions are modelled by passing, for each call
site in source order, an `Option HttpResp` oracle argument (`none` models an
unreachable server / aborted fetch, which the source detects as an absent
response).  Every remote call actually dispatched by the modelled code path is
recorded, in dispatch order, in the `calls` field of the result.
-/

namespace WFM

/-! ## String helpers

JavaScript string operations used by the source, modelled over `List Char`
so that everything evaluates by `decide`.  `jsReplace` mirrors
`String.prototype.replace` with a string pattern (first occurrence only);
`jsIncludes` mirrors `String.prototype.includes`; `jsSplit` mirrors
`String.prototype.split` with a one-character separator. -/

/-- Index of the first occurrence of `pat` in `l`, if any. -/
def findSub : List Char → List Char → Option Nat
  | l, pat =>
    if pat.isPrefixOf l then some 0
    else
      match l with
      | [] => none
      | _ :: t => (findSub t pat).map Nat.succ

/-- JavaScript `s.replace(pat, repl)` with a string pattern: replaces the
first occurrence only. -/
def jsReplace (s pat repl : String) : String :=
  match findSub s.data pat.data with
  | none => s
  | some i => ⟨s.data.take i ++ repl.data ++ s.data.drop (i + pat.data.length)⟩

/-- JavaScript `s.includes(pat)`. -/
def jsIncludes (s pat : String) : Bool :=
  (findSub s.data pat.data).isSome

/-- JavaScript `s.split(sep)` for a single-character separator. -/
def jsSplitAux (sep : Char) : List Char → List Char → List String
  | [], acc => [⟨acc.reverse⟩]
  | c :: rest, acc =>
    if c = sep then (⟨acc.reverse⟩ : String) :: jsSplitAux sep rest []
    else jsSplitAux sep rest (c :: acc)

def jsSplit (s : String) (sep : Char) : List String :=
  jsSplitAux sep s.data []

/-- JavaScript `s.startsWith(pre)`. -/
def strStartsWith (s pre : String) : Bool :=
  pre.data.isPrefixOf s.data

/-- JavaScript `s.endsWith(suf)`. -/
def strEndsWith (s suf : String) : Bool :=
  suf.data.isSuffixOf s.data

/-- JavaScript `s.substring(n)` (our paths are ASCII, so code units coincide
with characters). -/
def strDrop (s : String) (n : Nat) : String :=
  ⟨s.data.drop n⟩

/-- JavaScript array indexing `a[i]`, where an out-of-range access yields
`undefined`; for our purposes the only use is comparison against string
literals, for which `""` behaves like `undefined` (both compare unequal). -/
def getIdx (l : List String) (i : Nat) : String :=
  l.getD i ""

/-! ## Data model: `FileStat` and the caches -/

/-- Structure `FileStat` as declared in the source: remote `id`, a file type, the two
timestamps, a size and the `signed` flag. -/
structure FileStat where
  id : String
  ftype : String
  ctime : Int
  mtime : Int
  size : Nat
  signed : Bool
deriving Repr, DecidableEq

/-- The source `FileStat` constructor.  Note that it ignores its `size`
parameter and always stores `0` (`this.size = 0;` in the constructor body);
sizes only become nonzero when a later cache patch assigns `.size` directly. -/
def FileStat.mk0 (id ftype : String) (ctime mtime : Int) (_size : Nat) (signed : Bool) : FileStat :=
  ⟨id, ftype, ctime, mtime, 0, signed⟩

/-- A cache is a JavaScript object used as a map from synthetic file/folder
names to `FileStat`; modelled as an association list without duplicate keys
(insertion updates in place, as JS assignment does). -/
abbrev Cache := List (String × FileStat)

def cacheFind (c : Cache) (k : String) : Option FileStat :=
  (c.find? (fun p => p.1 = k)).map (·.2)

/-- Membership test `k in obj`. -/
def cacheHas (c : Cache) (k : String) : Bool :=
  (cacheFind c k).isSome

/-- Lookup `obj[k]` where the caller knows the key is present (the source would
crash on a missing key; we return a default `FileStat`). -/
def cacheGet (c : Cache) (k : String) : FileStat :=
  (cacheFind c k).getD ⟨"", "file", 0, 0, 0, false⟩

/-- Removal `delete obj[k]`. -/
def cacheDelete (c : Cache) (k : String) : Cache :=
  c.filter (fun p => p.1 ≠ k)

/-- Assignment `obj[k] = v`: binds `k` to `v`, replacing any existing binding.  (The JS
object keeps the original insertion position on overwrite; nothing in the
provider observes iteration order, so the binding — not the position — is what
is modelled.) -/
def cacheSet (c : Cache) (k : String) (v : FileStat) : Cache :=
  cacheDelete c k ++ [(k, v)]

/-- Field patch of an existing entry (`obj[k].ctime = ...` etc.). -/
def cacheModify (c : Cache) (k : String) (f : FileStat → FileStat) : Cache :=
  c.map (fun p => if p.1 = k then (p.1, f p.2) else p)

/-- The provider state: the six caches. -/
structure State where
  workflows : Cache
  actions : Cache
  templates : Cache
  workflow_documentations : Cache
  workflow_views : Cache
  workflow_folders : Cache
deriving Repr, DecidableEq

/-! ## Remote interaction model -/

/-- The `response.json()` payload pieces the source consumes:
`json.response.data.valid` (validation endpoints, compared against the string
`'false'`, here a `Bool` that is `false` exactly in that case) and the entry
`json.response.data[0]` / `json.response.data` (upload/create responses). -/
structure RespEntry where
  id : String
  name : String
  created_at : Int
  updated_at : Int
deriving Repr, DecidableEq

structure HttpResp where
  ok : Bool
  valid : Bool
  entry : RespEntry
deriving Repr, DecidableEq

/-- One remote call dispatched by the provider, as identified by its URL
pattern and verb in the source. -/
inductive RemoteCall where
  | wfValidate                               -- POST /workflow/validate
  | wfStatus (id status : String)            -- PUT /workflow/{id}/status
  | wfUpload (id : String)                   -- PUT /workflow/{id}/definition
  | wfCreate                                 -- POST /workflow/definition?provider=
  | wfDelete (id : String)                   -- DELETE /workflow/{id}
  | wfList                                   -- GET /workflow?fields=... (readDirectory)
  | actValidate                              -- POST /action/validate
  | actUpload (id : String)                  -- PUT /action/{id}/definition
  | actCreate                                -- POST /action/definition?provider=
  | actDelete (id : String)                  -- DELETE /action/{id}
  | tmplValidate                             -- POST /jinja-template/validate
  | tmplGetDef (id : String)                 -- GET /jinja-template/{id}/definition
  | tmplPut (id : String)                    -- PUT /jinja-template/{id}
  | tmplCreate                               -- POST /jinja-template
  | tmplDelete (id : String)                 -- DELETE /jinja-template/{id}
  | tmplList                                 -- GET /jinja-template?fields=... (readDirectory)
deriving Repr, DecidableEq

/-- Errors thrown as `vscode.FileSystemError.<kind>(msg)`. -/
inductive FsError where
  | Unavailable (msg : String)
  | NoPermissions (msg : String)
  | FileNotFound (msg : String)
  | FileNotADirectory (msg : String)
deriving Repr, DecidableEq

/-- How a lifecycle operation ends: normal completion, a thrown
`FileSystemError`, or an error surfaced with `showErrorMessage` after which
the function returns normally. -/
inductive Outcome where
  | ok
  | thrown (e : FsError)
  | errMsg (msg : String)
deriving Repr, DecidableEq

/-- Result of running a lifecycle operation: the remote calls dispatched in
order, the outcome, and the resulting provider state. -/
structure StepResult where
  calls : List RemoteCall
  outcome : Outcome
  st : State
deriving Repr, DecidableEq

/-- The submitted definition, abstracted to what the source extracts from it:
`Object.keys(yaml.parse(data)).filter(k => k !== "version")[0]` (the declared
top-level name) and `data.length`. -/
structure SubmittedDef where
  declaredName : String
  len : Nat
deriving Repr, DecidableEq

/-! ## Workflow lifecycle (`_createWorkflow`, `_updateWorkflow`, `_deleteWorkflow`) -/

/-- Model of `_createWorkflow(temp_name, data)`: seeds a placeholder folder entry, then
validate → POST definition → populate the four workflow caches from the
creation response → set status PUBLISHED. -/
def createWorkflow (st0 : State) (temp_name : String) (data : SubmittedDef)
    (rValidate rCreate rPublish : Option HttpResp) : StepResult :=
  let placeholder := FileStat.mk0 "" "directory" 0 0 data.len false
  let st := { st0 with workflow_folders :=
                cacheSet st0.workflow_folders (jsReplace temp_name ".yaml" "") placeholder }
  match rValidate with
  | none => ⟨[.wfValidate], .thrown (.Unavailable "Lost connection to NSP"), st⟩
  | some v =>
    if ¬v.ok then ⟨[.wfValidate], .thrown (.Unavailable "Workflow validation failed!"), st⟩
    else if ¬v.valid then ⟨[.wfValidate], .thrown (.NoPermissions "Invalid Workflow Definition"), st⟩
    else
      match rCreate with
      | none => ⟨[.wfValidate, .wfCreate], .thrown (.Unavailable "Lost connection to NSP"), st⟩
      | some c =>
        if ¬c.ok then
          ⟨[.wfValidate, .wfCreate], .thrown (.Unavailable "Workflow creation failed!"), st⟩
        else
          let entry := c.entry
          let name := entry.name ++ ".yaml"
          let id := entry.id
          let fs := FileStat.mk0 id "file" entry.created_at entry.updated_at data.len false
          let st2 := { st with
            workflow_folders := cacheSet st.workflow_folders (jsReplace name ".yaml" "")
              (FileStat.mk0 id "directory" entry.created_at entry.updated_at data.len false),
            workflows := cacheSet st.workflows name fs,
            workflow_documentations :=
              cacheSet st.workflow_documentations (jsReplace name ".yaml" ".md") fs,
            workflow_views := cacheSet st.workflow_views (jsReplace name ".yaml" ".json") fs }
          match rPublish with
          | none =>
            ⟨[.wfValidate, .wfCreate, .wfStatus id "PUBLISHED"],
              .thrown (.Unavailable "Lost connection to NSP"), st2⟩
          | some p =>
            if ¬p.ok then
              ⟨[.wfValidate, .wfCreate, .wfStatus id "PUBLISHED"],
                .thrown (.Unavailable "Change mode to PUBLISHED failed!"), st2⟩
            else ⟨[.wfValidate, .wfCreate, .wfStatus id "PUBLISHED"], .ok, st2⟩

/-- Model of `_updateWorkflow(name, data, rename)`: the declared-name (save-as / clone)
check, the signed check, then validate → set DRAFT → upload definition →
cache reconciliation (and a fire-and-forget `readDirectory` of the workflows
collection, whose GET is dispatched at this point) → set PUBLISHED.
The three `rC*` oracles feed the embedded `_createWorkflow` of the save-as
branch. -/
def updateWorkflow (st : State) (name : String) (data : SubmittedDef) (rename : Bool)
    (rValidate rDraft rUpload rPublish rCValidate rCPost rCPublish : Option HttpResp) :
    StepResult :=
  let defname := data.declaredName ++ ".yaml"
  if defname ≠ name ∧ ¬rename then
    if ¬cacheHas st.workflows defname then
      createWorkflow st defname data rCValidate rCPost rCPublish
    else ⟨[], .errMsg "Cloning to an existing Workflow name is not allowed!", st⟩
  else if (cacheGet st.workflows name).signed then
    ⟨[], .errMsg "Unable to save SIGNED workflow. To create a copy, modify the name in the definition.", st⟩
  else
    match rValidate with
    | none => ⟨[.wfValidate], .thrown (.Unavailable "Lost connection to NSP"), st⟩
    | some v =>
      if ¬v.ok then ⟨[.wfValidate], .thrown (.Unavailable "Workflow validation failed!"), st⟩
      else if ¬v.valid then
        ⟨[.wfValidate], .thrown (.NoPermissions "Invalid Workflow Definition"), st⟩
      else
        let id :=
          if ¬jsIncludes name ".yaml" then (cacheGet st.workflows (name ++ ".yaml")).id
          else (cacheGet st.workflows name).id
        match rDraft with
        | none =>
          ⟨[.wfValidate, .wfStatus id "DRAFT"], .thrown (.Unavailable "Lost connection to NSP"), st⟩
        | some d =>
          if ¬d.ok then
            ⟨[.wfValidate, .wfStatus id "DRAFT"],
              .thrown (.Unavailable "Change mode to DRAFT failed!"), st⟩
          else
            match rUpload with
            | none =>
              ⟨[.wfValidate, .wfStatus id "DRAFT", .wfUpload id],
                .thrown (.Unavailable "Lost connection to NSP"), st⟩
            | some u =>
              if ¬u.ok then
                ⟨[.wfValidate, .wfStatus id "DRAFT", .wfUpload id],
                  .thrown (.Unavailable "Workflow upload failed!"), st⟩
              else
                let entry := u.entry
                let renamedCache :=
                  cacheSet (cacheDelete st.workflows name) defname
                    (FileStat.mk0 id "file" entry.created_at entry.updated_at data.len false)
                let patchedWfs := cacheModify st.workflows name (fun f =>
                  { f with ctime := entry.created_at, mtime := entry.updated_at,
                           size := data.len })
                let patchedFolders := cacheModify st.workflow_folders
                  (jsReplace name ".yaml" "") (fun f =>
                    { f with ctime := entry.created_at, mtime := entry.updated_at })
                let st2 :=
                  if name ≠ defname then { st with workflows := renamedCache }
                  else { st with workflows := patchedWfs, workflow_folders := patchedFolders }
                match rPublish with
                | none =>
                  ⟨[.wfValidate, .wfStatus id "DRAFT", .wfUpload id, .wfList,
                      .wfStatus id "PUBLISHED"],
                    .thrown (.Unavailable "Lost connection to NSP"), st2⟩
                | some p =>
                  if ¬p.ok then
                    ⟨[.wfValidate, .wfStatus id "DRAFT", .wfUpload id, .wfList,
                        .wfStatus id "PUBLISHED"],
                      .thrown (.Unavailable "Change mode to PUBLISHED failed!"), st2⟩
                  else
                    ⟨[.wfValidate, .wfStatus id "DRAFT", .wfUpload id, .wfList,
                        .wfStatus id "PUBLISHED"], .ok, st2⟩

/-- Model of `_deleteWorkflow(name)` where `name` is the workflow-folder key (no
`.yaml` suffix on the path the dispatcher passes): signed check, set DRAFT,
DELETE, then the cache-removal block exactly as written in the source (which
uses `name` and `name.replace('.yaml', ...)` as removal keys). -/
def deleteWorkflow (st : State) (name : String) (rDraft rDelete : Option HttpResp) :
    StepResult :=
  if (cacheGet st.workflows (name ++ ".yaml")).signed then
    ⟨[], .thrown (.NoPermissions "Unable to delete SIGNED workflows"), st⟩
  else
    let id := (cacheGet st.workflows (name ++ ".yaml")).id
    match rDraft with
    | none => ⟨[.wfStatus id "DRAFT"], .thrown (.Unavailable "Lost connection to NSP"), st⟩
    | some d =>
      if ¬d.ok then
        ⟨[.wfStatus id "DRAFT"], .thrown (.Unavailable "Change mode to DRAFT failed!"), st⟩
      else
        match rDelete with
        | none =>
          ⟨[.wfStatus id "DRAFT", .wfDelete id],
            .thrown (.Unavailable "Lost connection to NSP"), st⟩
        | some r =>
          if ¬r.ok then
            ⟨[.wfStatus id "DRAFT", .wfDelete id],
              .thrown (.Unavailable "Workflow deletion failed!"), st⟩
          else
            ⟨[.wfStatus id "DRAFT", .wfDelete id], .ok,
              { st with
                workflows := cacheDelete st.workflows name,
                workflow_documentations :=
                  cacheDelete st.workflow_documentations (jsReplace name ".yaml" ".md"),
                workflow_views :=
                  cacheDelete st.workflow_views (jsReplace name ".yaml" ".json"),
                workflow_folders :=
                  cacheDelete st.workflow_folders (jsReplace name ".yaml" "") }⟩

/-- Abstracted length of the built-in default workflow template body (the
literal template is nonempty; its exact length is irrelevant to the claims —
it only feeds size hints, which the `FileStat` constructor discards). -/
def defaultWorkflowDefLen : Nat := 1

/-- The built-in default workflow definition substituted for empty content in
`_writeWorkflow`: its declared top-level key is `name.replace('.yaml','')`.
Only the declared name matters to the modelled claims. -/
def defaultWorkflowDef (name : String) : SubmittedDef :=
  ⟨jsReplace name ".yaml" "", defaultWorkflowDefLen⟩

/-- Model of `_writeWorkflow(name, data)`: extension guard, then update
(existing key) or create (new key; empty content is replaced by the built-in
default definition whose top-level key is the file name without `.yaml`). -/
def writeWorkflow (st : State) (name : String) (data : SubmittedDef)
    (rValidate rDraft rUpload rPublish rCValidate rCPost rCPublish : Option HttpResp) :
    StepResult :=
  if ¬strEndsWith name ".yaml" then
    ⟨[], .thrown (.NoPermissions "Workflow filename must end with .yaml"), st⟩
  else if cacheHas st.workflows name then
    updateWorkflow st name data false rValidate rDraft rUpload rPublish
      rCValidate rCPost rCPublish
  else
    createWorkflow st name (if data.len = 0 then defaultWorkflowDef name else data)
      rCValidate rCPost rCPublish

/-! ## Action lifecycle (`_createAction`, `_updateAction`, `_deleteAction`) -/

/-- Model of `_createAction(data)`: validate → POST definition → insert the cache entry
keyed by the response's `name + '.action'`. -/
def createAction (st : State) (data : SubmittedDef)
    (rValidate rCreate : Option HttpResp) : StepResult :=
  match rValidate with
  | none => ⟨[.actValidate], .thrown (.Unavailable "Lost connection to NSP"), st⟩
  | some v =>
    if ¬v.ok then ⟨[.actValidate], .thrown (.NoPermissions "Action validation failed!"), st⟩
    else if ¬v.valid then
      ⟨[.actValidate], .thrown (.NoPermissions "Invalid Action Definition"), st⟩
    else
      match rCreate with
      | none => ⟨[.actValidate, .actCreate], .thrown (.Unavailable "Lost connection to NSP"), st⟩
      | some c =>
        if ¬c.ok then
          ⟨[.actValidate, .actCreate], .thrown (.Unavailable "Action creation failed!"), st⟩
        else
          let entry := c.entry
          let newCache := cacheSet st.actions (entry.name ++ ".action")
            (FileStat.mk0 entry.id "file" entry.created_at entry.updated_at data.len false)
          ⟨[.actValidate, .actCreate], .ok, { st with actions := newCache }⟩

/-- Model of `_updateAction(name, data, rename)`: the declared-name (save-as / clone)
check, the signed check, then validate → upload definition → cache
reconciliation keyed on the response's `name + '.action'`.  There are no
DRAFT/PUBLISHED status transitions in the action update path. -/
def updateAction (st : State) (name : String) (data : SubmittedDef) (rename : Bool)
    (rValidate rUpload rCValidate rCPost : Option HttpResp) : StepResult :=
  let defname := data.declaredName ++ ".action"
  if defname ≠ name ∧ ¬rename then
    if ¬cacheHas st.actions defname then
      createAction st data rCValidate rCPost
    else ⟨[], .errMsg "Cloning to an existing Action name is not allowed!", st⟩
  else if (cacheGet st.actions name).signed then
    ⟨[], .errMsg "Unable to save SIGNED Action. To create a copy, modify the name in the definition.", st⟩
  else
    let id := (cacheGet st.actions name).id
    match rValidate with
    | none => ⟨[.actValidate], .thrown (.Unavailable "Lost connection to NSP"), st⟩
    | some v =>
      if ¬v.ok then ⟨[.actValidate], .thrown (.NoPermissions "Action validation failed!"), st⟩
      else if ¬v.valid then
        ⟨[.actValidate], .thrown (.NoPermissions "Invalid Action Definition"), st⟩
      else
        match rUpload with
        | none =>
          ⟨[.actValidate, .actUpload id], .thrown (.Unavailable "Lost connection to NSP"), st⟩
        | some u =>
          if ¬u.ok then
            ⟨[.actValidate, .actUpload id], .thrown (.Unavailable "Action upload failed!"), st⟩
          else
            let entry := u.entry
            let renamedCache :=
              cacheSet (cacheDelete st.actions name) (entry.name ++ ".action")
                (FileStat.mk0 id "file" entry.created_at entry.updated_at data.len false)
            let patchedCache := cacheModify st.actions name (fun f =>
              { f with ctime := entry.created_at, mtime := entry.updated_at,
                       size := data.len })
            if name ≠ entry.name ++ ".action" then
              ⟨[.actValidate, .actUpload id], .ok, { st with actions := renamedCache }⟩
            else
              ⟨[.actValidate, .actUpload id], .ok, { st with actions := patchedCache }⟩

/-- Model of `_deleteAction(name)`: DELETE, then remove the cache entry.  Note: unlike
`_deleteWorkflow`, there is no signed check anywhere in this method. -/
def deleteAction (st : State) (name : String) (rDelete : Option HttpResp) : StepResult :=
  let id := (cacheGet st.actions name).id
  match rDelete with
  | none => ⟨[.actDelete id], .thrown (.Unavailable "Lost connection to NSP"), st⟩
  | some r =>
    if ¬r.ok then
      ⟨[.actDelete id], .thrown (.Unavailable "Action deletion failed!"), st⟩
    else ⟨[.actDelete id], .ok, { st with actions := cacheDelete st.actions name }⟩

/-- Abstracted length of the built-in default action definition body. -/
def defaultActionDefLen : Nat := 1

/-- The built-in default action definition substituted for empty content in
`_writeAction`: its declared top-level key is `name.replace('.action','')`. -/
def defaultActionDef (name : String) : SubmittedDef :=
  ⟨jsReplace name ".action" "", defaultActionDefLen⟩

/-- Model of `_writeAction(name, data)`: extension guard, then update or
create (empty content replaced by the built-in default action definition). -/
def writeAction (st : State) (name : String) (data : SubmittedDef)
    (rValidate rUpload rCValidate rCPost : Option HttpResp) : StepResult :=
  if ¬strEndsWith name ".action" then
    ⟨[], .thrown (.NoPermissions "Action filename must end with .action"), st⟩
  else if cacheHas st.actions name then
    updateAction st name data false rValidate rUpload rCValidate rCPost
  else
    createAction st (if data.len = 0 then defaultActionDef name else data) rCValidate rCPost

/-! ## Template lifecycle (`_createTemplate`, `_updateTemplate`,
`_writeTemplate`, `_deleteTemplate`) -/

/-- Model of `_updateTemplate(name, data)`: PUT the wrapped document, then reconcile
the cache keyed on the response's `name + '.jinja'` (a rename triggers a
delete/insert pair plus a fire-and-forget templates `readDirectory`). -/
def updateTemplate (st : State) (name : String) (data : SubmittedDef)
    (rPut : Option HttpResp) : StepResult :=
  let id := (cacheGet st.templates name).id
  match rPut with
  | none => ⟨[.tmplPut id], .thrown (.Unavailable "Lost connection to NSP"), st⟩
  | some p =>
    if ¬p.ok then
      ⟨[.tmplPut id], .thrown (.Unavailable "Template upload failed!"), st⟩
    else
      let entry := p.entry
      let defname := entry.name ++ ".jinja"
      let renamedCache := cacheSet (cacheDelete st.templates name) defname
        (FileStat.mk0 id "file" entry.created_at entry.updated_at data.len false)
      let patchedCache := cacheModify st.templates name (fun f =>
        { f with ctime := entry.created_at, mtime := entry.updated_at, size := data.len })
      if name ≠ defname then
        ⟨[.tmplPut id, .tmplList], .ok, { st with templates := renamedCache }⟩
      else
        ⟨[.tmplPut id], .ok, { st with templates := patchedCache }⟩

/-- Model of `_createTemplate(data)`: validate → POST → insert the cache entry keyed
by the response's `name + '.jinja'`. -/
def createTemplate (st : State) (data : SubmittedDef)
    (rValidate rCreate : Option HttpResp) : StepResult :=
  match rValidate with
  | none => ⟨[.tmplValidate], .thrown (.Unavailable "Lost connection to NSP"), st⟩
  | some v =>
    if ¬v.ok then
      ⟨[.tmplValidate], .thrown (.Unavailable "Template validation failed!"), st⟩
    else if ¬v.valid then
      ⟨[.tmplValidate], .thrown (.NoPermissions "Invalid Template Definition"), st⟩
    else
      match rCreate with
      | none =>
        ⟨[.tmplValidate, .tmplCreate], .thrown (.Unavailable "Lost connection to NSP"), st⟩
      | some c =>
        if ¬c.ok then
          ⟨[.tmplValidate, .tmplCreate], .thrown (.Unavailable "Template creation failed!"), st⟩
        else
          let entry := c.entry
          let newCache := cacheSet st.templates (entry.name ++ ".jinja")
            (FileStat.mk0 entry.id "file" entry.created_at entry.updated_at data.len false)
          ⟨[.tmplValidate, .tmplCreate], .ok, { st with templates := newCache }⟩

/-- Abstracted length of the scaffold template document body. -/
def defaultTemplateDefLen : Nat := 1

/-- The scaffold document `_writeTemplate` builds for a brand-new template;
its `name` field is the file name without `.jinja`. -/
def defaultTemplateDef (name : String) : SubmittedDef :=
  ⟨jsReplace name ".jinja" "", defaultTemplateDefLen⟩

/-- Model of `_writeTemplate(name, data)`: extension guard; for an existing template a
GET of the full document precedes the PUT (`_updateTemplate`); for a new name
the scaffold document is created via `_createTemplate`. -/
def writeTemplate (st : State) (name : String) (data : SubmittedDef)
    (rGet rPut rCValidate rCPost : Option HttpResp) : StepResult :=
  if ¬strEndsWith name ".jinja" then
    ⟨[], .thrown (.NoPermissions "Jinja Template filename must end with .jinja"), st⟩
  else if cacheHas st.templates name then
    let id := (cacheGet st.templates name).id
    match rGet with
    | none => ⟨[.tmplGetDef id], .thrown (.Unavailable "Lost connection to NSP"), st⟩
    | some g =>
      if ¬g.ok then ⟨[.tmplGetDef id], .thrown (.FileNotFound "Template not found"), st⟩
      else
        let r := updateTemplate st name data rPut
        ⟨.tmplGetDef id :: r.calls, r.outcome, r.st⟩
  else
    createTemplate st (defaultTemplateDef name) rCValidate rCPost

/-- Model of `_deleteTemplate(name)`: DELETE (the URL oddly applies
`id.replace('.jinja','')` to the remote id), then remove the cache entry. -/
def deleteTemplate (st : State) (name : String) (rDelete : Option HttpResp) : StepResult :=
  let id := jsReplace (cacheGet st.templates name).id ".jinja" ""
  match rDelete with
  | none => ⟨[.tmplDelete id], .thrown (.Unavailable "Lost connection to NSP"), st⟩
  | some r =>
    if ¬r.ok then
      ⟨[.tmplDelete id], .thrown (.Unavailable "Template deletion failed!"), st⟩
    else ⟨[.tmplDelete id], .ok, { st with templates := cacheDelete st.templates name }⟩

/-! ## Directory listing of the workflows collection (`readDirectory`) -/

/-- One element of `json.response.data` for the workflow listing: the fields
the provider consumes (`id`, `name`, `created_at`, `updated_at`, `tags`,
`details.signature`). -/
structure WfEntry where
  id : String
  name : String
  created_at : Int
  updated_at : Int
  tags : List String
  signature : String
deriving Repr, DecidableEq

/-- The tag filter `checkLabels` bound over `this.fileIgnore`: an entry is
kept iff its tags, filtered to those in `fileIgnore`, are empty. -/
def tagsKept (fileIgnore : List String) (e : WfEntry) : Bool :=
  (e.tags.filter (fun t => fileIgnore.contains t)).length = 0

/-- Cache population by `reduce` from `{}`: assign each entry under the derived
key. -/
def popCache (entries : List WfEntry) (key : WfEntry → String) (ftype : String) : Cache :=
  entries.foldl (fun c e =>
    cacheSet c (key e)
      (FileStat.mk0 e.id ftype e.created_at e.updated_at 0 (e.signature = "SIGNED"))) []

/-- Model of `readDirectory` on `wfm:/workflows`: wholesale replaces the four workflow
caches from the unfiltered listing, then returns the directory entries of the
tag-filtered listing (names only; all are directories). -/
def readDirectoryWorkflows (st : State) (entries : List WfEntry) (fileIgnore : List String) :
    State × List String :=
  ({ st with
      workflow_folders := popCache entries (fun e => e.name) "directory",
      workflows := popCache entries (fun e => e.name ++ ".yaml") "file",
      workflow_documentations := popCache entries (fun e => e.name ++ ".md") "file",
      workflow_views := popCache entries (fun e => e.name ++ ".json") "file" },
   (entries.filter (tagsKept fileIgnore)).map (fun e => e.name))

/-! ## `stat` -/

/-- What `stat` produces: a cached `FileStat`, the fixed read-only top-level
directory stat, the JavaScript value `undefined` (the function returns without
a value), or a thrown error. -/
inductive StatResult where
  | file (f : FileStat)
  | topDir
  | undef
  | err (e : FsError)
deriving Repr, DecidableEq

/-- Model of `stat(uri)`.  The lazy cache population (`await readDirectory(...)` when
the consulted cache is empty) is modelled by the `reload` parameter, applied
exactly where the source awaits `readDirectory`; theorems about populated
states hold for every `reload`. -/
def statPath (st : State) (reload : String → State → State) (path : String) : StatResult :=
  if strEndsWith path "." then .err (.FileNotFound "No Permissions!")
  else if path = "wfm:/" ∨ path = "wfm:/workflows" ∨ path = "wfm:/actions" ∨
      path = "wfm:/templates" then .topDir
  else if strStartsWith path "wfm:/workflows/" ∨ strStartsWith path "wfm:/actions/" ∨
      strStartsWith path "wfm:/templates/" then
    let segs := jsSplit path '/'
    if strStartsWith path "wfm:/workflows/" ∧ segs.length > 3 ∧
        ¬(strEndsWith path ".yaml" ∨ strEndsWith path ".json" ∨ strEndsWith path ".md") then
      .err (.FileNotFound "No Permission to add a folder/file within a workflow folder!")
    else if strStartsWith path "wfm:/workflows/" ∧
        ¬(strEndsWith path ".yaml" ∨ strEndsWith path ".json" ∨ strEndsWith path ".md") then
      let stL := if st.workflow_folders.length = 0 then reload "wfm:/workflows" st else st
      match cacheFind stL.workflow_folders (getIdx segs 2) with
      | some f => .file f
      | none => .err (.FileNotFound "Unknown workflow!")
    else if strStartsWith path "wfm:/workflows/" ∧ strEndsWith path ".yaml" then
      let stL := if st.workflows.length = 0 then reload "wfm:/workflows" st else st
      match cacheFind stL.workflows (getIdx segs 3) with
      | some f => .file f
      | none => .err (.FileNotFound "Unknown workflow!")
    else if strStartsWith path "wfm:/workflows/" ∧ strEndsWith path ".md" then
      let stL := if st.workflows.length = 0 then reload "wfm:/workflows" st else st
      if getIdx segs 3 ≠ "README.md" then .undef
      else
        match cacheFind stL.workflow_documentations (getIdx segs 2 ++ ".md") with
        | some f => .file f
        | none => .err (.FileNotFound "Unknown workflow!")
    else if strStartsWith path "wfm:/workflows/" ∧ strEndsWith path ".json" then
      let stL := if st.workflows.length = 0 then reload "wfm:/workflows" st else st
      match cacheFind stL.workflow_views (getIdx segs 3) with
      | some f => .file f
      | none => .err (.FileNotFound "Unknown workflow!")
    else if strStartsWith path "wfm:/actions/" then
      let stL := if st.actions.length = 0 then reload "wfm:/actions" st else st
      match cacheFind stL.actions (strDrop path 13) with
      | some f => .file f
      | none => .err (.FileNotFound "Unknown action!")
    else if strStartsWith path "wfm:/templates/" then
      let stL := if st.templates.length = 0 then reload "wfm:/templates" st else st
      match cacheFind stL.templates (strDrop path 15) with
      | some f => .file f
      | none => .err (.FileNotFound "Unknown template!")
    else .undef
  else .err (.FileNotFound "Unknown resource!")

/-! ## `delete` dispatcher -/

/-- The folder name used in the child-file rejection message:
`path.split("/").pop().split(".")[0]`. -/
def folderNameOf (path : String) : String :=
  getIdx (jsSplit (getIdx (jsSplit path '/') ((jsSplit path '/').length - 1)) '.') 0

/-- Model of `delete(uri)`: the top-level guards (note the `"wfm/templates"` literal,
which lacks the scheme colon and therefore never matches a real URI), then
routing to the kind-specific delete protocols.  `rA`/`rB` feed the (at most
two) remote calls of the routed protocol in order. -/
def deletePath (st : State) (path : String) (rA rB : Option HttpResp) : StepResult :=
  if path = "wfm:/workflows" then
    ⟨[], .thrown (.NoPermissions "Permission denied!"), st⟩
  else if path = "wfm:/actions" then
    ⟨[], .thrown (.NoPermissions "Permission denied!"), st⟩
  else if path = "wfm/templates" then
    ⟨[], .thrown (.NoPermissions "Permission denied!"), st⟩
  else if strStartsWith path "wfm:/workflows/" ∧
      ¬(strEndsWith path ".json" ∨ strEndsWith path ".yaml" ∨ strEndsWith path ".md") then
    deleteWorkflow st (strDrop path 15) rA rB
  else if strStartsWith path "wfm:/workflows/" ∧
      (strEndsWith path ".json" ∨ strEndsWith path ".yaml" ∨ strEndsWith path ".md") then
    ⟨[], .thrown (.NoPermissions
      ("Permission denied! Must delete the " ++ folderNameOf path ++ " workflow folder!")), st⟩
  else if strStartsWith path "wfm:/actions/" then
    deleteAction st (strDrop path 13) rA
  else if strStartsWith path "wfm:/templates/" then
    deleteTemplate st (strDrop path 15) rA
  else
    ⟨[], .thrown (.FileNotFound ("No Permissions to delete (" ++ path ++ ")!")), st⟩

/-! ## The update-protocol call sequences -/

/-- The remote id `_updateWorkflow` resolves for its status/upload calls. -/
def wfUpdateId (st : State) (name : String) : String :=
  if ¬jsIncludes name ".yaml" then (cacheGet st.workflows (name ++ ".yaml")).id
  else (cacheGet st.workflows name).id

/-- The full call sequence of a successful workflow update: validate, set
DRAFT, upload, the fire-and-forget workflows re-listing GET, set PUBLISHED. -/
def wfUpdateSeq (st : State) (name : String) : List RemoteCall :=
  [.wfValidate, .wfStatus (wfUpdateId st name) "DRAFT", .wfUpload (wfUpdateId st name),
   .wfList, .wfStatus (wfUpdateId st name) "PUBLISHED"]

/-- The full call sequence of a successful action update: validate, upload.
There are no status transitions in the action path. -/
def actUpdateSeq (st : State) (name : String) : List RemoteCall :=
  [.actValidate, .actUpload (cacheGet st.actions name).id]

/-! ## Concrete fixtures for witnesses and counterexamples -/

/-- A plain unsigned cached file handle. -/
def fsEx : FileStat := ⟨"idX", "file", 0, 0, 0, false⟩

/-- A fully successful HTTP response whose entry carries a fresh name/id. -/
def respOkEx : HttpResp := ⟨true, true, ⟨"idY", "b", 7, 9⟩⟩

/-- An HTTP failure response (non-ok status). -/
def respBadEx : HttpResp := ⟨false, true, ⟨"", "", 0, 0⟩⟩

/-- An action upload response echoing the unchanged name `a`. -/
def respActEx : HttpResp := ⟨true, true, ⟨"idY", "a", 7, 9⟩⟩

/-- Fixture state: workflow `w`, action `a.action`, template `t.jinja`, and a
sibling workflow/action named `b` for clone-collision scenarios. -/
def stEx : State :=
  ⟨[("w.yaml", fsEx), ("b.yaml", fsEx)],
   [("a.action", fsEx), ("b.action", fsEx)],
   [("t.jinja", fsEx)],
   [("w.md", fsEx), ("b.md", fsEx)],
   [("w.json", fsEx), ("b.json", fsEx)],
   [("w", ⟨"idX", "directory", 0, 0, 0, false⟩), ("b", ⟨"idX", "directory", 0, 0, 0, false⟩)]⟩

/-- A signed cached handle. -/
def signedFs : FileStat := ⟨"idS", "file", 0, 0, 0, true⟩

/-- Fixture state holding a signed workflow `w` and a signed action
`a.action`. -/
def stSigned : State :=
  ⟨[("w.yaml", signedFs)], [("a.action", signedFs)], [], [],
   [], [("w", ⟨"idS", "directory", 0, 0, 0, true⟩)]⟩

/-! ## Cache lemmas -/

theorem cacheFind_cons (p : String × FileStat) (t : Cache) (k : String) :
    cacheFind (p :: t) k = if p.1 = k then some p.2 else cacheFind t k := by
  by_cases hp : p.1 = k <;> simp [cacheFind, List.find?_cons, hp]

theorem cacheDelete_cons (p : String × FileStat) (t : Cache) (k : String) :
    cacheDelete (p :: t) k = if p.1 = k then cacheDelete t k else p :: cacheDelete t k := by
  by_cases hp : p.1 = k <;> simp [cacheDelete, List.filter_cons, hp]

theorem cacheFind_cacheDelete_self (c : Cache) (k : String) :
    cacheFind (cacheDelete c k) k = none := by
  induction c with
  | nil => rfl
  | cons p t ih =>
    rw [cacheDelete_cons]
    by_cases hp : p.1 = k
    · rw [if_pos hp]; exact ih
    · rw [if_neg hp, cacheFind_cons, if_neg hp]; exact ih

theorem cacheFind_cacheDelete_other (c : Cache) (k k' : String) (h : k' ≠ k) :
    cacheFind (cacheDelete c k) k' = cacheFind c k' := by
  induction c with
  | nil => rfl
  | cons p t ih =>
    rw [cacheDelete_cons, cacheFind_cons]
    by_cases hp : p.1 = k
    · have hp' : ¬(p.1 = k') := fun he => h (he ▸ hp)
      rw [if_pos hp, if_neg hp', ih]
    · rw [if_neg hp, cacheFind_cons]
      by_cases hq : p.1 = k'
      · rw [if_pos hq, if_pos hq]
      · rw [if_neg hq, if_neg hq, ih]

theorem cacheFind_append (c₁ c₂ : Cache) (k : String) :
    cacheFind (c₁ ++ c₂) k =
      match cacheFind c₁ k with
      | some v => some v
      | none => cacheFind c₂ k := by
  induction c₁ with
  | nil => simp [cacheFind]
  | cons p t ih =>
    rw [List.cons_append, cacheFind_cons, cacheFind_cons]
    by_cases hp : p.1 = k
    · rw [if_pos hp, if_pos hp]
    · rw [if_neg hp, if_neg hp, ih]

theorem cacheFind_cacheSet_self (c : Cache) (k : String) (v : FileStat) :
    cacheFind (cacheSet c k v) k = some v := by
  rw [cacheSet, cacheFind_append, cacheFind_cacheDelete_self]
  simp [cacheFind, List.find?]

theorem cacheFind_cacheSet_other (c : Cache) (k k' : String) (v : FileStat) (h : k' ≠ k) :
    cacheFind (cacheSet c k v) k' = cacheFind c k' := by
  rw [cacheSet, cacheFind_append, cacheFind_cacheDelete_other c k k' h]
  cases hf : cacheFind c k' with
  | some w => rfl
  | none =>
    have hkk : ¬((k, v).1 = k') := fun he => h he.symm
    rw [cacheFind_cons, if_neg hkk]
    rfl

theorem cacheHas_cacheSet_self (c : Cache) (k : String) (v : FileStat) :
    cacheHas (cacheSet c k v) k = true := by
  simp [cacheHas, cacheFind_cacheSet_self]

theorem cacheHas_cacheSet_other (c : Cache) (k k' : String) (v : FileStat) (h : k' ≠ k) :
    cacheHas (cacheSet c k v) k' = cacheHas c k' := by
  simp [cacheHas, cacheFind_cacheSet_other c k k' v h]

theorem cacheHas_cacheDelete_self (c : Cache) (k : String) :
    cacheHas (cacheDelete c k) k = false := by
  simp [cacheHas, cacheFind_cacheDelete_self]

theorem cacheGet_cacheSet_self (c : Cache) (k : String) (v : FileStat) :
    cacheGet (cacheSet c k v) k = v := by
  simp [cacheGet, cacheFind_cacheSet_self]

theorem cacheHas_ne_nil (c : Cache) (k : String) (h : cacheHas c k = true) : c ≠ [] := by
  intro he
  rw [he] at h
  simp [cacheHas, cacheFind] at h

/-! ## Claim theorems -/

/-- C10: deleting any of the three top-level collection paths always fails
with no remote call and no cache change, but not uniformly: `wfm:/workflows`
and `wfm:/actions` hit their dedicated guards and throw `NoPermissions`,
whereas `wfm:/templates` matches neither its dedicated guard (written
`"wfm/templates"`, missing the scheme colon) nor the `"wfm:/templates/"`
prefix branch, and falls through to the final branch throwing
`FileNotFound`. -/
theorem C10_delete_toplevel (st : State) (rA rB : Option HttpResp) :
    deletePath st "wfm:/workflows" rA rB
      = ⟨[], .thrown (.NoPermissions "Permission denied!"), st⟩ ∧
    deletePath st "wfm:/actions" rA rB
      = ⟨[], .thrown (.NoPermissions "Permission denied!"), st⟩ ∧
    deletePath st "wfm:/templates" rA rB
      = ⟨[], .thrown (.FileNotFound "No Permissions to delete (wfm:/templates)!"), st⟩ :=
  ⟨rfl, rfl, rfl⟩

theorem C10_delete_toplevel_witness :
    deletePath stEx "wfm:/workflows" none none
      = ⟨[], .thrown (.NoPermissions "Permission denied!"), stEx⟩ ∧
    deletePath stEx "wfm:/actions" none none
      = ⟨[], .thrown (.NoPermissions "Permission denied!"), stEx⟩ ∧
    deletePath stEx "wfm:/templates" none none
      = ⟨[], .thrown (.FileNotFound "No Permissions to delete (wfm:/templates)!"), stEx⟩ :=
  C10_delete_toplevel stEx none none

/-- C3: the workflow-folder delete protocol succeeds remotely and is intended
to drop all four cache entries of workflow `w` in the same step (the source
comments "When a workflow is deleted its documentation is also deleted"), but
the removal keys are computed from the folder key `w`, not the cache keys
`w.yaml`/`w.md`/`w.json`, so only the folder entry is actually removed: the
definition, documentation and view entries survive the delete.  The second
conjunct shows the half of the claim that does hold: deleting a child file
directly is rejected with a permission error and no cache or remote change. -/
theorem C3_folder_delete_leaves_stale_entries :
    ((deletePath stEx "wfm:/workflows/w" (some respOkEx) (some respOkEx)).outcome = .ok ∧
      cacheHas (deletePath stEx "wfm:/workflows/w" (some respOkEx) (some respOkEx)).st.workflow_folders "w" = false ∧
      cacheHas (deletePath stEx "wfm:/workflows/w" (some respOkEx) (some respOkEx)).st.workflows "w.yaml" = true ∧
      cacheHas (deletePath stEx "wfm:/workflows/w" (some respOkEx) (some respOkEx)).st.workflow_documentations "w.md" = true ∧
      cacheHas (deletePath stEx "wfm:/workflows/w" (some respOkEx) (some respOkEx)).st.workflow_views "w.json" = true) ∧
    deletePath stEx "wfm:/workflows/w/README.md" (some respOkEx) (some respOkEx)
      = ⟨[], .thrown
          (.NoPermissions "Permission denied! Must delete the README workflow folder!"),
        stEx⟩ := by
  decide

/-- C6: for each resource kind, writing under a name lacking the kind's
required extension fails with a descriptive `NoPermissions` error, with zero
remote calls dispatched and the state unchanged. -/
theorem C6_extension_guard (st : State) (nw na nt : String) (dw da dt : SubmittedDef)
    (r1 r2 r3 r4 r5 r6 r7 : Option HttpResp)
    (hw : strEndsWith nw ".yaml" = false)
    (ha : strEndsWith na ".action" = false)
    (ht : strEndsWith nt ".jinja" = false) :
    writeWorkflow st nw dw r1 r2 r3 r4 r5 r6 r7
      = ⟨[], .thrown (.NoPermissions "Workflow filename must end with .yaml"), st⟩ ∧
    writeAction st na da r1 r2 r3 r4
      = ⟨[], .thrown (.NoPermissions "Action filename must end with .action"), st⟩ ∧
    writeTemplate st nt dt r1 r2 r3 r4
      = ⟨[], .thrown (.NoPermissions "Jinja Template filename must end with .jinja"), st⟩ := by
  refine ⟨?_, ?_, ?_⟩
  · simp [writeWorkflow, hw]
  · simp [writeAction, ha]
  · simp [writeTemplate, ht]

theorem C6_extension_guard_witness :
    writeWorkflow stEx "foo.txt" ⟨"foo", 3⟩ none none none none none none none
      = ⟨[], .thrown (.NoPermissions "Workflow filename must end with .yaml"), stEx⟩ ∧
    writeAction stEx "foo.txt" ⟨"foo", 3⟩ none none none none
      = ⟨[], .thrown (.NoPermissions "Action filename must end with .action"), stEx⟩ ∧
    writeTemplate stEx "foo.txt" ⟨"foo", 3⟩ none none none none
      = ⟨[], .thrown (.NoPermissions "Jinja Template filename must end with .jinja"), stEx⟩ :=
  C6_extension_guard stEx "foo.txt" "foo.txt" "foo.txt" ⟨"foo", 3⟩ ⟨"foo", 3⟩ ⟨"foo", 3⟩
    none none none none none none none (by decide) (by decide) (by decide)

/-- C5: an update (not flagged as rename) whose declared in-definition name
differs from the file's cache key, where the declared name already exists in
the cache, is refused with the "cloning ... not allowed" error: no remote
call is dispatched and the whole state (hence both resources' entries) is
unchanged; for workflows and actions alike. -/
theorem C5_clone_refusal (st : State) (nameW nameA : String) (dw da : SubmittedDef)
    (r1 r2 r3 r4 r5 r6 r7 : Option HttpResp)
    (hw : dw.declaredName ++ ".yaml" ≠ nameW)
    (hwEx : cacheHas st.workflows (dw.declaredName ++ ".yaml") = true)
    (ha : da.declaredName ++ ".action" ≠ nameA)
    (haEx : cacheHas st.actions (da.declaredName ++ ".action") = true) :
    updateWorkflow st nameW dw false r1 r2 r3 r4 r5 r6 r7
      = ⟨[], .errMsg "Cloning to an existing Workflow name is not allowed!", st⟩ ∧
    updateAction st nameA da false r1 r2 r3 r4
      = ⟨[], .errMsg "Cloning to an existing Action name is not allowed!", st⟩ := by
  constructor
  · simp [updateWorkflow, hw, hwEx]
  · simp [updateAction, ha, haEx]

/-- C9: for `wfm:/workflows/<name>/<file>.md` paths, `stat` distinguishes the
final segment: anything other than exactly `README.md` makes the function
return without a value (JavaScript `undefined`) — no `FileStat` and no thrown
error — while exactly `README.md` returns the cached documentation handle or
throws `FileNotFound`. -/
theorem C9_stat_workflow_md (st : State) (reload : String → State → State)
    (p wname fname : String)
    (hsegs : jsSplit p '/' = ["wfm:", "workflows", wname, fname])
    (hdot : strEndsWith p "." = false)
    (h1 : p ≠ "wfm:/") (h2 : p ≠ "wfm:/workflows") (h3 : p ≠ "wfm:/actions")
    (h4 : p ≠ "wfm:/templates")
    (hwf : strStartsWith p "wfm:/workflows/" = true)
    (hyaml : strEndsWith p ".yaml" = false)
    (hjson : strEndsWith p ".json" = false)
    (hmd : strEndsWith p ".md" = true)
    (hne : st.workflows ≠ []) :
    (fname ≠ "README.md" → statPath st reload p = .undef) ∧
    (fname = "README.md" →
      statPath st reload p =
        match cacheFind st.workflow_documentations (wname ++ ".md") with
        | some f => .file f
        | none => .err (.FileNotFound "Unknown workflow!")) := by
  have hlen : ¬st.workflows.length = 0 := by
    intro h0
    exact hne (List.length_eq_zero.mp h0)
  constructor
  · intro hf
    simp [statPath, hsegs, hdot, h1, h2, h3, h4, hwf, hyaml, hjson, hmd, getIdx, hf, hlen]
  · intro hf
    simp [statPath, hsegs, hdot, h1, h2, h3, h4, hwf, hyaml, hjson, hmd, getIdx, hf, hlen]

theorem C9_stat_workflow_md_witness :
    statPath stEx (fun _ s => s) "wfm:/workflows/w/foo.md" = .undef ∧
    statPath stEx (fun _ s => s) "wfm:/workflows/w/README.md" = .file fsEx := by
  have h1 := C9_stat_workflow_md stEx (fun _ s => s) "wfm:/workflows/w/foo.md" "w" "foo.md"
    (by decide) (by decide) (by decide) (by decide) (by decide) (by decide) (by decide)
    (by decide) (by decide) (by decide) (by decide)
  have h2 := C9_stat_workflow_md stEx (fun _ s => s) "wfm:/workflows/w/README.md" "w" "README.md"
    (by decide) (by decide) (by decide) (by decide) (by decide) (by decide) (by decide)
    (by decide) (by decide) (by decide) (by decide)
  refine ⟨h1.1 (by decide), ?_⟩
  rw [h2.2 rfl]
  decide

/-- C2 counterexample: for an action whose cached handle has `signed = true`,
the delete path does not fail before any remote mutating call — the remote
DELETE is dispatched and the operation completes, removing the cache entry.
`_deleteAction` has no signed check at all. -/
theorem C2_counterexample :
    (cacheGet stSigned.actions "a.action").signed = true ∧
    deletePath stSigned "wfm:/actions/a.action" (some respOkEx) none
      = ⟨[.actDelete "idS"], .ok, { stSigned with actions := [] }⟩ := by
  decide

/-- C2 amended: signed immutability holds for workflow update (error surfaced,
no remote call, state unchanged), workflow delete (`NoPermissions` before any
remote call) and action update (error surfaced, no remote call), but action
delete dispatches the remote DELETE unconditionally: its call list is the
one-element DELETE for every response oracle. -/
theorem C2_signed_guards (st : State) (nameW nameA wname : String) (dw da : SubmittedDef)
    (renW renA : Bool) (r1 r2 r3 r4 r5 r6 r7 : Option HttpResp)
    (hwName : dw.declaredName ++ ".yaml" = nameW)
    (hwSigned : (cacheGet st.workflows nameW).signed = true)
    (haName : da.declaredName ++ ".action" = nameA)
    (haSigned : (cacheGet st.actions nameA).signed = true)
    (hfSigned : (cacheGet st.workflows (wname ++ ".yaml")).signed = true) :
    updateWorkflow st nameW dw renW r1 r2 r3 r4 r5 r6 r7
      = ⟨[], .errMsg "Unable to save SIGNED workflow. To create a copy, modify the name in the definition.", st⟩ ∧
    updateAction st nameA da renA r1 r2 r3 r4
      = ⟨[], .errMsg "Unable to save SIGNED Action. To create a copy, modify the name in the definition.", st⟩ ∧
    deleteWorkflow st wname r1 r2
      = ⟨[], .thrown (.NoPermissions "Unable to delete SIGNED workflows"), st⟩ ∧
    (deleteAction st nameA r1).calls = [.actDelete (cacheGet st.actions nameA).id] := by
  refine ⟨?_, ?_, ?_, ?_⟩
  · simp [updateWorkflow, hwName, hwSigned]
  · simp [updateAction, haName, haSigned]
  · simp [deleteWorkflow, hfSigned]
  · rcases r1 with _ | r
    · rfl
    · by_cases hok : r.ok <;> simp [deleteAction, hok]

theorem C2_signed_guards_witness :
    updateWorkflow stSigned "w.yaml" ⟨"w", 3⟩ false none none none none none none none
      = ⟨[], .errMsg "Unable to save SIGNED workflow. To create a copy, modify the name in the definition.", stSigned⟩ ∧
    updateAction stSigned "a.action" ⟨"a", 3⟩ false none none none none
      = ⟨[], .errMsg "Unable to save SIGNED Action. To create a copy, modify the name in the definition.", stSigned⟩ ∧
    deleteWorkflow stSigned "w" none none
      = ⟨[], .thrown (.NoPermissions "Unable to delete SIGNED workflows"), stSigned⟩ ∧
    (deleteAction stSigned "a.action" none).calls
      = [.actDelete (cacheGet stSigned.actions "a.action").id] :=
  C2_signed_guards stSigned "w.yaml" "a.action" "w" ⟨"w", 3⟩ ⟨"a", 3⟩ false false
    none none none none none none none
    (by decide) (by decide) (by decide) (by decide) (by decide)

theorem C5_clone_refusal_witness :
    updateWorkflow stEx "w.yaml" ⟨"b", 3⟩ false none none none none none none none
      = ⟨[], .errMsg "Cloning to an existing Workflow name is not allowed!", stEx⟩ ∧
    updateAction stEx "a.action" ⟨"b", 3⟩ false none none none none
      = ⟨[], .errMsg "Cloning to an existing Action name is not allowed!", stEx⟩ :=
  C5_clone_refusal stEx "w.yaml" "a.action" ⟨"b", 3⟩ ⟨"b", 3⟩
    none none none none none none none
    (by decide) (by decide) (by decide) (by decide)

/-- C4: rename identity.  After a fully successful rename-triggered update —
for workflows, `updateWorkflow` with the rename flag and a declared name
differing from the old key; for actions and templates, an upload/PUT response
whose echoed `name` differs from the old key — the cache no longer contains
the old key, contains the new key, and the handle stored at the new key keeps
the old handle's remote id. -/
theorem C4_rename_identity (st : State) (nameW nameA nameT : String)
    (dw da dt : SubmittedDef) (v d u p ua pt : HttpResp)
    (hvok : v.ok = true) (hvvalid : v.valid = true)
    (hdok : d.ok = true) (huok : u.ok = true) (hpok : p.ok = true)
    (hwSigned : (cacheGet st.workflows nameW).signed = false)
    (hwInc : jsIncludes nameW ".yaml" = true)
    (hwNe : nameW ≠ dw.declaredName ++ ".yaml")
    (haSigned : (cacheGet st.actions nameA).signed = false)
    (huaok : ua.ok = true)
    (haNe : nameA ≠ ua.entry.name ++ ".action")
    (hptok : pt.ok = true)
    (htNe : nameT ≠ pt.entry.name ++ ".jinja") :
    (cacheHas (updateWorkflow st nameW dw true (some v) (some d) (some u) (some p)
        none none none).st.workflows nameW = false ∧
      cacheHas (updateWorkflow st nameW dw true (some v) (some d) (some u) (some p)
        none none none).st.workflows (dw.declaredName ++ ".yaml") = true ∧
      (cacheGet (updateWorkflow st nameW dw true (some v) (some d) (some u) (some p)
        none none none).st.workflows (dw.declaredName ++ ".yaml")).id
        = (cacheGet st.workflows nameW).id) ∧
    (cacheHas (updateAction st nameA da true (some v) (some ua)
        none none).st.actions nameA = false ∧
      cacheHas (updateAction st nameA da true (some v) (some ua)
        none none).st.actions (ua.entry.name ++ ".action") = true ∧
      (cacheGet (updateAction st nameA da true (some v) (some ua)
        none none).st.actions (ua.entry.name ++ ".action")).id
        = (cacheGet st.actions nameA).id) ∧
    (cacheHas (updateTemplate st nameT dt (some pt)).st.templates nameT = false ∧
      cacheHas (updateTemplate st nameT dt (some pt)).st.templates
        (pt.entry.name ++ ".jinja") = true ∧
      (cacheGet (updateTemplate st nameT dt (some pt)).st.templates
        (pt.entry.name ++ ".jinja")).id = (cacheGet st.templates nameT).id) := by
  refine ⟨⟨?_, ?_, ?_⟩, ⟨?_, ?_, ?_⟩, ⟨?_, ?_, ?_⟩⟩
  · simp [updateWorkflow, hvok, hvvalid, hdok, huok, hpok, hwSigned, hwInc, hwNe,
      cacheHas, cacheFind_cacheSet_other, cacheFind_cacheDelete_self, hwNe]
  · simp [updateWorkflow, hvok, hvvalid, hdok, huok, hpok, hwSigned, hwInc, hwNe,
      cacheHas, cacheFind_cacheSet_self]
  · simp [updateWorkflow, hvok, hvvalid, hdok, huok, hpok, hwSigned, hwInc, hwNe,
      cacheGet_cacheSet_self, FileStat.mk0]
  · simp [updateAction, hvok, hvvalid, huaok, haSigned, haNe,
      cacheHas, cacheFind_cacheSet_other, cacheFind_cacheDelete_self, haNe]
  · simp [updateAction, hvok, hvvalid, huaok, haSigned, haNe,
      cacheHas, cacheFind_cacheSet_self]
  · simp [updateAction, hvok, hvvalid, huaok, haSigned, haNe,
      cacheGet_cacheSet_self, FileStat.mk0]
  · simp [updateTemplate, hptok, htNe,
      cacheHas, cacheFind_cacheSet_other, cacheFind_cacheDelete_self, htNe]
  · simp [updateTemplate, hptok, htNe, cacheHas, cacheFind_cacheSet_self]
  · simp [updateTemplate, hptok, htNe, cacheGet_cacheSet_self, FileStat.mk0]

theorem C4_rename_identity_witness :
    (cacheHas (updateWorkflow stEx "w.yaml" ⟨"z", 3⟩ true (some respOkEx) (some respOkEx)
        (some respOkEx) (some respOkEx) none none none).st.workflows "w.yaml" = false ∧
      cacheHas (updateWorkflow stEx "w.yaml" ⟨"z", 3⟩ true (some respOkEx) (some respOkEx)
        (some respOkEx) (some respOkEx) none none none).st.workflows "z.yaml" = true ∧
      (cacheGet (updateWorkflow stEx "w.yaml" ⟨"z", 3⟩ true (some respOkEx) (some respOkEx)
        (some respOkEx) (some respOkEx) none none none).st.workflows "z.yaml").id
        = (cacheGet stEx.workflows "w.yaml").id) ∧
    (cacheHas (updateAction stEx "a.action" ⟨"a", 3⟩ true (some respOkEx) (some respOkEx)
        none none).st.actions "a.action" = false ∧
      cacheHas (updateAction stEx "a.action" ⟨"a", 3⟩ true (some respOkEx) (some respOkEx)
        none none).st.actions "b.action" = true ∧
      (cacheGet (updateAction stEx "a.action" ⟨"a", 3⟩ true (some respOkEx) (some respOkEx)
        none none).st.actions "b.action").id = (cacheGet stEx.actions "a.action").id) ∧
    (cacheHas (updateTemplate stEx "t.jinja" ⟨"t", 3⟩ (some respOkEx)).st.templates
        "t.jinja" = false ∧
      cacheHas (updateTemplate stEx "t.jinja" ⟨"t", 3⟩ (some respOkEx)).st.templates
        "b.jinja" = true ∧
      (cacheGet (updateTemplate stEx "t.jinja" ⟨"t", 3⟩ (some respOkEx)).st.templates
        "b.jinja").id = (cacheGet stEx.templates "t.jinja").id) :=
  C4_rename_identity stEx "w.yaml" "a.action" "t.jinja" ⟨"z", 3⟩ ⟨"a", 3⟩ ⟨"t", 3⟩
    respOkEx respOkEx respOkEx respOkEx respOkEx respOkEx
    (by decide) (by decide) (by decide) (by decide) (by decide) (by decide) (by decide)
    (by decide) (by decide) (by decide) (by decide) (by decide) (by decide)

/-! ## Lemmas about `popCache` -/

theorem cacheHas_cacheSet_of (c : Cache) (k k' : String) (v : FileStat)
    (h : cacheHas c k' = true) : cacheHas (cacheSet c k v) k' = true := by
  by_cases he : k' = k
  · rw [he]
    exact cacheHas_cacheSet_self c k v
  · rw [cacheHas_cacheSet_other c k k' v he]
    exact h

theorem cacheHas_popCache_aux (entries : List WfEntry) (key : WfEntry → String)
    (t : String) (c : Cache) (k : String)
    (h : cacheHas c k = true ∨ ∃ e, e ∈ entries ∧ key e = k) :
    cacheHas (entries.foldl (fun c' e =>
      cacheSet c' (key e)
        (FileStat.mk0 e.id t e.created_at e.updated_at 0 (e.signature = "SIGNED"))) c) k
      = true := by
  induction entries generalizing c with
  | nil =>
    rcases h with h | ⟨e, he, _⟩
    · exact h
    · cases he
  | cons a tl ih =>
    rw [List.foldl_cons]
    apply ih
    rcases h with h | ⟨e, he, hk⟩
    · exact Or.inl (cacheHas_cacheSet_of _ _ _ _ h)
    · rcases List.mem_cons.mp he with he' | hmem
      · left
        rw [← hk, he']
        exact cacheHas_cacheSet_self _ _ _
      · exact Or.inr ⟨e, hmem, hk⟩

theorem cacheHas_popCache (entries : List WfEntry) (key : WfEntry → String)
    (t : String) (e : WfEntry) (he : e ∈ entries) :
    cacheHas (popCache entries key t) (key e) = true :=
  cacheHas_popCache_aux entries key t [] (key e) (Or.inr ⟨e, he, rfl⟩)

/-- C8: a workflows-collection listing omits every entry whose tag set meets
the exclusion list (`tagsKept = false`, i.e. the entry's tags filtered to the
ignore list are nonempty), yet all four workflow caches are populated from the
unfiltered data, so a subsequent `stat` on the omitted workflow's exact folder
path still succeeds with a cached handle. -/
theorem C8_tag_filtering (st : State) (reload : String → State → State)
    (entries : List WfEntry) (fileIgnore : List String) (e : WfEntry) (p : String)
    (he : e ∈ entries)
    (hall : ∀ e', e' ∈ entries → e'.name = e.name → tagsKept fileIgnore e' = false)
    (hsegs : jsSplit p '/' = ["wfm:", "workflows", e.name])
    (hdot : strEndsWith p "." = false)
    (h1 : p ≠ "wfm:/") (h2 : p ≠ "wfm:/workflows") (h3 : p ≠ "wfm:/actions")
    (h4 : p ≠ "wfm:/templates")
    (hwf : strStartsWith p "wfm:/workflows/" = true)
    (hyaml : strEndsWith p ".yaml" = false)
    (hjson : strEndsWith p ".json" = false)
    (hmd : strEndsWith p ".md" = false) :
    e.name ∉ (readDirectoryWorkflows st entries fileIgnore).2 ∧
    cacheHas (readDirectoryWorkflows st entries fileIgnore).1.workflow_folders e.name = true ∧
    cacheHas (readDirectoryWorkflows st entries fileIgnore).1.workflows
      (e.name ++ ".yaml") = true ∧
    cacheHas (readDirectoryWorkflows st entries fileIgnore).1.workflow_documentations
      (e.name ++ ".md") = true ∧
    cacheHas (readDirectoryWorkflows st entries fileIgnore).1.workflow_views
      (e.name ++ ".json") = true ∧
    (∃ f, statPath (readDirectoryWorkflows st entries fileIgnore).1 reload p = .file f) := by
  have hfolders :
      cacheHas (readDirectoryWorkflows st entries fileIgnore).1.workflow_folders e.name
        = true :=
    cacheHas_popCache entries (fun e' => e'.name) "directory" e he
  refine ⟨?_, hfolders, ?_, ?_, ?_, ?_⟩
  · intro hmem
    rw [readDirectoryWorkflows] at hmem
    simp only [List.mem_map, List.mem_filter] at hmem
    rcases hmem with ⟨e', ⟨he', hkept⟩, hname⟩
    rw [hall e' he' hname] at hkept
    cases hkept
  · exact cacheHas_popCache entries (fun e' => e'.name ++ ".yaml") "file" e he
  · exact cacheHas_popCache entries (fun e' => e'.name ++ ".md") "file" e he
  · exact cacheHas_popCache entries (fun e' => e'.name ++ ".json") "file" e he
  · have hnn :
        (readDirectoryWorkflows st entries fileIgnore).1.workflow_folders ≠ [] :=
      cacheHas_ne_nil _ _ hfolders
    have hlen :
        ¬(readDirectoryWorkflows st entries fileIgnore).1.workflow_folders.length = 0 := by
      intro h0
      exact hnn (List.length_eq_zero.mp h0)
    rcases Option.isSome_iff_exists.mp hfolders with ⟨f, hf⟩
    refine ⟨f, ?_⟩
    simp [statPath, hsegs, hdot, h1, h2, h3, h4, hwf, hyaml, hjson, hmd, getIdx, hlen, hf]

theorem C8_tag_filtering_witness :
    let entries := [WfEntry.mk "idZ" "w" 3 4 ["internal"] "UNSIGNED"]
    "w" ∉ (readDirectoryWorkflows stEx entries ["internal"]).2 ∧
    cacheHas (readDirectoryWorkflows stEx entries ["internal"]).1.workflow_folders "w" = true ∧
    cacheHas (readDirectoryWorkflows stEx entries ["internal"]).1.workflows "w.yaml" = true ∧
    cacheHas (readDirectoryWorkflows stEx entries
      ["internal"]).1.workflow_documentations "w.md" = true ∧
    cacheHas (readDirectoryWorkflows stEx entries ["internal"]).1.workflow_views
      "w.json" = true ∧
    (∃ f, statPath (readDirectoryWorkflows stEx entries ["internal"]).1 (fun _ s => s)
      "wfm:/workflows/w" = .file f) :=
  C8_tag_filtering stEx (fun _ s => s) [WfEntry.mk "idZ" "w" 3 4 ["internal"] "UNSIGNED"]
    ["internal"] (WfEntry.mk "idZ" "w" 3 4 ["internal"] "UNSIGNED") "wfm:/workflows/w"
    (by decide)
    (by intro e' he' _; rw [List.mem_singleton.mp he']; decide)
    (by decide) (by decide) (by decide) (by decide) (by decide) (by decide) (by decide)
    (by decide) (by decide) (by decide)

/-- Gating/ordering facts for the workflow update path (past the
declared-name and signed checks): the dispatched calls are always an initial
segment of the full sequence; a fully `ok` run dispatches exactly the full
sequence; any failure up to and including the upload step (at most 3 calls)
leaves the state unchanged; failures surface as thrown errors. -/
theorem wfUpdate_gated (st : State) (name : String) (dw : SubmittedDef) (ren : Bool)
    (rV rD rU rP : Option HttpResp)
    (hPass : dw.declaredName ++ ".yaml" = name ∨ ren = true)
    (hSigned : (cacheGet st.workflows name).signed = false) :
    (∃ k, (updateWorkflow st name dw ren rV rD rU rP none none none).calls
        = (wfUpdateSeq st name).take k) ∧
    ((updateWorkflow st name dw ren rV rD rU rP none none none).outcome = .ok →
      (updateWorkflow st name dw ren rV rD rU rP none none none).calls
        = wfUpdateSeq st name) ∧
    ((updateWorkflow st name dw ren rV rD rU rP none none none).calls.length ≤ 3 ∧
      (updateWorkflow st name dw ren rV rD rU rP none none none).outcome ≠ .ok →
      (updateWorkflow st name dw ren rV rD rU rP none none none).st = st) ∧
    ((updateWorkflow st name dw ren rV rD rU rP none none none).outcome ≠ .ok →
      ∃ er, (updateWorkflow st name dw ren rV rD rU rP none none none).outcome
        = .thrown er) := by
  have hno : ¬(¬dw.declaredName ++ ".yaml" = name ∧ ren = false) := by
    rcases hPass with h | h
    · exact fun hc => hc.1 h
    · intro hc
      rw [h] at hc
      exact Bool.noConfusion hc.2
  rcases rV with _ | v
  · refine ⟨⟨1, ?_⟩, ?_, ?_, ?_⟩ <;>
      simp [updateWorkflow, hno, hSigned, wfUpdateSeq, wfUpdateId]
  · by_cases hvok : v.ok
    · by_cases hvv : v.valid
      · rcases rD with _ | d
        · refine ⟨⟨2, ?_⟩, ?_, ?_, ?_⟩ <;>
            simp [updateWorkflow, hno, hSigned, hvok, hvv, wfUpdateSeq, wfUpdateId]
        · by_cases hdok : d.ok
          · rcases rU with _ | u
            · refine ⟨⟨3, ?_⟩, ?_, ?_, ?_⟩ <;>
                simp [updateWorkflow, hno, hSigned, hvok, hvv, hdok, wfUpdateSeq, wfUpdateId]
            · by_cases huok : u.ok
              · rcases rP with _ | p
                · refine ⟨⟨5, ?_⟩, ?_, ?_, ?_⟩ <;>
                    simp [updateWorkflow, hno, hSigned, hvok, hvv, hdok, huok,
                      wfUpdateSeq, wfUpdateId]
                · by_cases hpok : p.ok
                  · refine ⟨⟨5, ?_⟩, ?_, ?_, ?_⟩ <;>
                      simp [updateWorkflow, hno, hSigned, hvok, hvv, hdok, huok, hpok,
                        wfUpdateSeq, wfUpdateId]
                  · refine ⟨⟨5, ?_⟩, ?_, ?_, ?_⟩ <;>
                      simp [updateWorkflow, hno, hSigned, hvok, hvv, hdok, huok, hpok,
                        wfUpdateSeq, wfUpdateId]
              · refine ⟨⟨3, ?_⟩, ?_, ?_, ?_⟩ <;>
                  simp [updateWorkflow, hno, hSigned, hvok, hvv, hdok, huok,
                    wfUpdateSeq, wfUpdateId]
          · refine ⟨⟨2, ?_⟩, ?_, ?_, ?_⟩ <;>
              simp [updateWorkflow, hno, hSigned, hvok, hvv, hdok, wfUpdateSeq, wfUpdateId]
      · refine ⟨⟨1, ?_⟩, ?_, ?_, ?_⟩ <;>
          simp [updateWorkflow, hno, hSigned, hvok, hvv, wfUpdateSeq, wfUpdateId]
    · refine ⟨⟨1, ?_⟩, ?_, ?_, ?_⟩ <;>
        simp [updateWorkflow, hno, hSigned, hvok, wfUpdateSeq, wfUpdateId]

/-- Gating/ordering facts for the action update path (past the declared-name
and signed checks): the dispatched calls are always an initial segment of
validate-then-upload; an `ok` run dispatches exactly both; any failure leaves
the state unchanged and surfaces as a thrown error. -/
theorem actUpdate_gated (st : State) (name : String) (da : SubmittedDef) (ren : Bool)
    (rV rU : Option HttpResp)
    (hPass : da.declaredName ++ ".action" = name ∨ ren = true)
    (hSigned : (cacheGet st.actions name).signed = false) :
    (∃ k, (updateAction st name da ren rV rU none none).calls
        = (actUpdateSeq st name).take k) ∧
    ((updateAction st name da ren rV rU none none).outcome = .ok →
      (updateAction st name da ren rV rU none none).calls = actUpdateSeq st name) ∧
    ((updateAction st name da ren rV rU none none).outcome ≠ .ok →
      (updateAction st name da ren rV rU none none).st = st ∧
      ∃ er, (updateAction st name da ren rV rU none none).outcome = .thrown er) := by
  have hno : ¬(¬da.declaredName ++ ".action" = name ∧ ren = false) := by
    rcases hPass with h | h
    · exact fun hc => hc.1 h
    · intro hc
      rw [h] at hc
      exact Bool.noConfusion hc.2
  rcases rV with _ | v
  · refine ⟨⟨1, ?_⟩, ?_, ?_⟩ <;>
      simp [updateAction, hno, hSigned, actUpdateSeq]
  · by_cases hvok : v.ok
    · by_cases hvv : v.valid
      · rcases rU with _ | u
        · refine ⟨⟨2, ?_⟩, ?_, ?_⟩ <;>
            simp [updateAction, hno, hSigned, hvok, hvv, actUpdateSeq]
        · by_cases huok : u.ok
          · by_cases hre : name = u.entry.name ++ ".action"
            · subst hre
              refine ⟨⟨2, ?_⟩, ?_, ?_⟩ <;>
                simp [updateAction, hno, hSigned, hvok, hvv, huok, actUpdateSeq]
            · refine ⟨⟨2, ?_⟩, ?_, ?_⟩ <;>
                simp [updateAction, hno, hSigned, hvok, hvv, huok, hre, actUpdateSeq]
          · refine ⟨⟨2, ?_⟩, ?_, ?_⟩ <;>
              simp [updateAction, hno, hSigned, hvok, hvv, huok, actUpdateSeq]
      · refine ⟨⟨1, ?_⟩, ?_, ?_⟩ <;>
          simp [updateAction, hno, hSigned, hvok, hvv, actUpdateSeq]
    · refine ⟨⟨1, ?_⟩, ?_, ?_⟩ <;>
        simp [updateAction, hno, hSigned, hvok, actUpdateSeq]

/-- C1 counterexample: (i) a workflow update whose validate, DRAFT and upload
steps succeed but whose PUBLISHED step fails throws — yet the workflows cache
has already been patched with the upload response's timestamps, so the failed
operation did not leave the cache unchanged; (ii) an action update that
passes the checks and fully succeeds dispatches only validate and upload —
there are no DRAFT/PUBLISHED status calls in the action path. -/
theorem C1_counterexample :
    ((updateWorkflow stEx "w.yaml" ⟨"w", 5⟩ false (some respOkEx) (some respOkEx)
        (some respOkEx) (some respBadEx) none none none).outcome
      = .thrown (.Unavailable "Change mode to PUBLISHED failed!") ∧
    (updateWorkflow stEx "w.yaml" ⟨"w", 5⟩ false (some respOkEx) (some respOkEx)
        (some respOkEx) (some respBadEx) none none none).st ≠ stEx) ∧
    ((updateAction stEx "a.action" ⟨"a", 5⟩ false (some respActEx) (some respActEx)
        none none).outcome = .ok ∧
    (updateAction stEx "a.action" ⟨"a", 5⟩ false (some respActEx) (some respActEx)
        none none).calls = [.actValidate, .actUpload "idX"]) := by
  decide

/-- C1 amended: for updates that pass the declared-name and signed checks —
workflows: the calls are always an initial segment of validate → DRAFT →
upload → (re-listing GET) → PUBLISHED, the full sequence exactly on success,
each step dispatched only after the previous succeeded; a failure at
validate/DRAFT/upload (at most 3 calls) surfaces as a thrown error with the
cache unchanged, but a PUBLISHED-step failure occurs after the cache has
already been reconciled; actions: the calls are an initial segment of
validate → upload (no status transitions), the full pair exactly on success,
and any failure throws with the cache unchanged. -/
theorem C1_amended_protocol (st : State) (nameW nameA : String) (dw da : SubmittedDef)
    (renW renA : Bool) (rV rD rU rP raV raU : Option HttpResp)
    (hwPass : dw.declaredName ++ ".yaml" = nameW ∨ renW = true)
    (hwSigned : (cacheGet st.workflows nameW).signed = false)
    (haPass : da.declaredName ++ ".action" = nameA ∨ renA = true)
    (haSigned : (cacheGet st.actions nameA).signed = false) :
    (∃ k, (updateWorkflow st nameW dw renW rV rD rU rP none none none).calls
        = (wfUpdateSeq st nameW).take k) ∧
    ((updateWorkflow st nameW dw renW rV rD rU rP none none none).outcome = .ok →
      (updateWorkflow st nameW dw renW rV rD rU rP none none none).calls
        = wfUpdateSeq st nameW) ∧
    ((updateWorkflow st nameW dw renW rV rD rU rP none none none).calls.length ≤ 3 ∧
      (updateWorkflow st nameW dw renW rV rD rU rP none none none).outcome ≠ .ok →
      (updateWorkflow st nameW dw renW rV rD rU rP none none none).st = st) ∧
    ((updateWorkflow st nameW dw renW rV rD rU rP none none none).outcome ≠ .ok →
      ∃ er, (updateWorkflow st nameW dw renW rV rD rU rP none none none).outcome
        = .thrown er) ∧
    (∃ k, (updateAction st nameA da renA raV raU none none).calls
        = (actUpdateSeq st nameA).take k) ∧
    ((updateAction st nameA da renA raV raU none none).outcome = .ok →
      (updateAction st nameA da renA raV raU none none).calls = actUpdateSeq st nameA) ∧
    ((updateAction st nameA da renA raV raU none none).outcome ≠ .ok →
      (updateAction st nameA da renA raV raU none none).st = st ∧
      ∃ er, (updateAction st nameA da renA raV raU none none).outcome = .thrown er) := by
  obtain ⟨w1, w2, w3, w4⟩ := wfUpdate_gated st nameW dw renW rV rD rU rP hwPass hwSigned
  obtain ⟨a1, a2, a3⟩ := actUpdate_gated st nameA da renA raV raU haPass haSigned
  exact ⟨w1, w2, w3, w4, a1, a2, a3⟩

theorem C1_amended_protocol_witness :
    (∃ k, (updateWorkflow stEx "w.yaml" ⟨"w", 5⟩ false (some respOkEx) (some respOkEx)
        (some respOkEx) (some respOkEx) none none none).calls
        = (wfUpdateSeq stEx "w.yaml").take k) ∧
    ((updateWorkflow stEx "w.yaml" ⟨"w", 5⟩ false (some respOkEx) (some respOkEx)
        (some respOkEx) (some respOkEx) none none none).outcome = .ok →
      (updateWorkflow stEx "w.yaml" ⟨"w", 5⟩ false (some respOkEx) (some respOkEx)
        (some respOkEx) (some respOkEx) none none none).calls = wfUpdateSeq stEx "w.yaml") ∧
    ((updateWorkflow stEx "w.yaml" ⟨"w", 5⟩ false (some respOkEx) (some respOkEx)
        (some respOkEx) (some respOkEx) none none none).calls.length ≤ 3 ∧
      (updateWorkflow stEx "w.yaml" ⟨"w", 5⟩ false (some respOkEx) (some respOkEx)
        (some respOkEx) (some respOkEx) none none none).outcome ≠ .ok →
      (updateWorkflow stEx "w.yaml" ⟨"w", 5⟩ false (some respOkEx) (some respOkEx)
        (some respOkEx) (some respOkEx) none none none).st = stEx) ∧
    ((updateWorkflow stEx "w.yaml" ⟨"w", 5⟩ false (some respOkEx) (some respOkEx)
        (some respOkEx) (some respOkEx) none none none).outcome ≠ .ok →
      ∃ er, (updateWorkflow stEx "w.yaml" ⟨"w", 5⟩ false (some respOkEx) (some respOkEx)
        (some respOkEx) (some respOkEx) none none none).outcome = .thrown er) ∧
    (∃ k, (updateAction stEx "a.action" ⟨"a", 5⟩ false (some respActEx) (some respActEx)
        none none).calls = (actUpdateSeq stEx "a.action").take k) ∧
    ((updateAction stEx "a.action" ⟨"a", 5⟩ false (some respActEx) (some respActEx)
        none none).outcome = .ok →
      (updateAction stEx "a.action" ⟨"a", 5⟩ false (some respActEx) (some respActEx)
        none none).calls = actUpdateSeq stEx "a.action") ∧
    ((updateAction stEx "a.action" ⟨"a", 5⟩ false (some respActEx) (some respActEx)
        none none).outcome ≠ .ok →
      (updateAction stEx "a.action" ⟨"a", 5⟩ false (some respActEx) (some respActEx)
        none none).st = stEx ∧
      ∃ er, (updateAction stEx "a.action" ⟨"a", 5⟩ false (some respActEx) (some respActEx)
        none none).outcome = .thrown er) :=
  C1_amended_protocol stEx "w.yaml" "a.action" ⟨"w", 5⟩ ⟨"a", 5⟩ false false
    (some respOkEx) (some respOkEx) (some respOkEx) (some respOkEx)
    (some respActEx) (some respActEx)
    (by decide) (by decide) (by decide) (by decide)

end WFM
